import Mathlib

/-!
Verification of the core reconciliation logic of `core_organization`
(AWS Organizations SCP / OU lifecycle management).

The Python sources `scp.py` and `units.py` are shallowly embedded here:

* Remote exceptions are modelled as `String` messages.  Following the
  convention of the source (which classifies errors by substring search on
  `str(e)`, and boto error strings contain the exception class name), an
  error "is of class C" exactly when its message contains `C` as a
  substring.
* The AWS Organizations client is modelled as a record of pure functions
  (`OrgClient`): each remote primitive maps its arguments to a fixed
  `Outcome` (success value or raised error message).  Lifecycle operations
  then become pure functions that return the trace of remote calls issued
  plus the CloudFormation response sent.
* `randint(lo, hi)` is modelled as an oracle `randint : Nat → Nat → Nat → Nat`
  (lower bound, upper bound, call index); theorems assume only the range
  contract of `randint`.
-/

namespace CoreOrg

/-- Result of a single remote call / attempt: either a value or a raised
error, carried as its message string. -/
inductive Outcome (α : Type) where
  | ok : α → Outcome α
  | err : String → Outcome α
deriving DecidableEq

/-- What a retry loop finally does.  Python may raise arbitrary exception
values: `raised m` is a plain (re-)raise of a remote error with message `m`
(the only thing the source ever does), while `retryExhausted m` stands for a
hypothetical dedicated wrapper/tag signalling that the retry cap was
exhausted (`RetryExhaustedError` in the specification's words) — no code in
the repository constructs such a value. -/
inductive RetryOutcome (α : Type) where
  | ok : α → RetryOutcome α
  | raised : String → RetryOutcome α
  | retryExhausted : String → RetryOutcome α
deriving DecidableEq

/-- Observable behaviour of one run of a retry loop: the sleeps performed
(in order), the number of attempts made, and the final outcome. -/
structure RetryTrace (α : Type) where
  sleeps : List Nat
  attempts : Nat
  outcome : RetryOutcome α
deriving DecidableEq

/-- Python `sub in hay` on strings, as lists of characters. -/
def listContains (hay sub : List Char) : Bool :=
  match hay with
  | [] => sub.isEmpty
  | _ :: t => sub.isPrefixOf hay || listContains t sub

/-- Python `sub in hay` for `String`. -/
def strContains (hay sub : String) : Bool :=
  listContains hay.data sub.data

/-- Python `s.startswith(pre)`. -/
def strStartsWith (s pre : String) : Bool :=
  pre.data.isPrefixOf s.data

/-- Python `s.lower()`. -/
def strToLower (s : String) : String :=
  ⟨s.data.map Char.toLower⟩

/-- Python `s.strip()`. -/
def strStrip (s : String) : String :=
  ⟨((s.data.dropWhile Char.isWhitespace).reverse.dropWhile
      Char.isWhitespace).reverse⟩

/-- `retryable_errors` of `retry_with_backoff` (scp.py lines 223-229,
units.py lines 148-154). -/
def retryableErrors : List String :=
  ["ConcurrentModificationException", "PolicyInUseException",
   "TooManyRequestsException", "ServiceException", "ThrottlingException"]

/-- `any(error in error_msg for error in retryable_errors)` in
`retry_with_backoff`. -/
def is_retryable (error_msg : String) : Bool :=
  retryableErrors.any (fun error => strContains error_msg error)

/-- `retryable_errors` of `move_account_with_retry` (units.py line 231). -/
def moveRetryableErrors : List String :=
  ["PolicyInUseException", "ConcurrentModificationException"]

/-- Retryability test of `move_account_with_retry` (units.py line 232). -/
def is_retryable_move (error_msg : String) : Bool :=
  moveRetryableErrors.any (fun error => strContains error_msg error)

def MAX_RETRY_ATTEMPTS : Nat := 10
def MIN_RETRY_DELAY : Nat := 5
def MAX_RETRY_DELAY : Nat := 30
def CHILD_MOVE_MIN_DELAY : Nat := 5
def CHILD_MOVE_MAX_DELAY : Nat := 20

/-- The loop body of `retry_with_backoff` (scp.py lines 199-253, identical
in units.py lines 124-178).  `func a` is the outcome of calling the wrapped
zero-argument operation on attempt `a` (0-based), `randint lo hi n` models
`randint(lo, hi)` at call index `n`, `fuel` is the number of loop
iterations left, `attempt` the 0-based index of the current iteration,
`sleepAcc` the sleeps so far in reverse order, and `lastErr` the message of
`last_exception`.  Exhausting the loop re-raises `last_exception` plain
(`raise last_exception`). -/
def retryGo (retryable : String → Bool) (lo hi : Nat)
    (randint : Nat → Nat → Nat → Nat) (func : Nat → Outcome α) :
    Nat → Nat → List Nat → String → RetryTrace α
  | 0, attempt, sleepAcc, lastErr =>
      { sleeps := sleepAcc.reverse, attempts := attempt,
        outcome := .raised lastErr }
  | fuel + 1, attempt, sleepAcc, _ =>
      let sleepAcc := if 0 < attempt then randint lo hi attempt :: sleepAcc
                      else sleepAcc
      match func attempt with
      | .ok v =>
          { sleeps := sleepAcc.reverse, attempts := attempt + 1,
            outcome := .ok v }
      | .err e =>
          if retryable e then
            retryGo retryable lo hi randint func fuel (attempt + 1) sleepAcc e
          else
            { sleeps := sleepAcc.reverse, attempts := attempt + 1,
              outcome := .raised e }

/-- `retry_with_backoff(func)` (scp.py lines 186-253 and the identical copy
in units.py lines 111-178). -/
def retry_with_backoff (func : Nat → Outcome α)
    (randint : Nat → Nat → Nat → Nat) : RetryTrace α :=
  retryGo is_retryable MIN_RETRY_DELAY MAX_RETRY_DELAY randint func
    MAX_RETRY_ATTEMPTS 0 [] ""

/-- The loop body of `move_account_with_retry` (units.py lines 207-240):
shorter delay range, two retryable kinds, and the retryable-but-last-attempt
case raises inside the loop (`if not is_retryable or attempt ==
MAX_RETRY_ATTEMPTS - 1: raise`).  If the loop were ever to complete without
returning or raising, the Python function would fall through and return
`None`; that is the (unreachable from the entry point) `fuel = 0` case. -/
def moveGo (randint : Nat → Nat → Nat → Nat) (func : Nat → Outcome Unit) :
    Nat → Nat → List Nat → RetryTrace Unit
  | 0, attempt, sleepAcc =>
      { sleeps := sleepAcc.reverse, attempts := attempt, outcome := .ok () }
  | fuel + 1, attempt, sleepAcc =>
      let sleepAcc :=
        if 0 < attempt then
          randint CHILD_MOVE_MIN_DELAY CHILD_MOVE_MAX_DELAY attempt :: sleepAcc
        else sleepAcc
      match func attempt with
      | .ok _ =>
          { sleeps := sleepAcc.reverse, attempts := attempt + 1,
            outcome := .ok () }
      | .err e =>
          if is_retryable_move e = false ∨ attempt = MAX_RETRY_ATTEMPTS - 1 then
            { sleeps := sleepAcc.reverse, attempts := attempt + 1,
              outcome := .raised e }
          else
            moveGo randint func fuel (attempt + 1) sleepAcc

/-- `move_account_with_retry` (units.py lines 181-240), abstracted over the
outcome of the wrapped `move_account` call per attempt. -/
def move_account_with_retry (func : Nat → Outcome Unit)
    (randint : Nat → Nat → Nat → Nat) : RetryTrace Unit :=
  moveGo randint func MAX_RETRY_ATTEMPTS 0 []

/-- In the operation-level model each remote call has a fixed result, so
the wrapped zero-argument closure passed to `retry_with_backoff` returns
the same outcome on every attempt.  This evaluates that case and reports
the number of attempts (= number of remote calls issued) together with the
final outcome; the delay oracle is irrelevant to both. -/
def retryConst (r : Outcome α) : Nat × RetryOutcome α :=
  let t := retry_with_backoff (fun _ => r) (fun lo _ _ => lo)
  (t.attempts, t.outcome)

/-- Same as `retryConst` for `move_account_with_retry`. -/
def moveRetryConst (r : Outcome Unit) : Nat × RetryOutcome Unit :=
  let t := move_account_with_retry (fun _ => r) (fun lo _ _ => lo)
  (t.attempts, t.outcome)

/-! ## AWS Organizations ID patterns (scp.py lines 44-47, units.py 45-47) -/

/-- A character of the class `[0-9a-z]`. -/
def isLowerAlnum (c : Char) : Bool :=
  c.isDigit || (Char.ofNat 97 ≤ c && c ≤ Char.ofNat 122)

/-- `ROOT_ID_PATTERN = ^r-[0-9a-z]{4,32}$`. -/
def rootIdMatch (s : String) : Bool :=
  match s.data with
  | 'r' :: '-' :: rest =>
      decide (4 ≤ rest.length) && decide (rest.length ≤ 32)
        && rest.all isLowerAlnum
  | _ => false

/-- `ACCOUNT_ID_PATTERN = ^[0-9]{12}$`. -/
def accountIdMatch (s : String) : Bool :=
  decide (s.data.length = 12) && s.data.all Char.isDigit

/-- Split a character list at the first dash, returning the pieces before
and after it.  Since `[0-9a-z]` excludes the dash, the regex
`^ou-[0-9a-z]{4,32}-[0-9a-z]{8,32}$` forces the first dash after the `ou-`
prefix to be the separator between the two alphanumeric runs. -/
def splitAtDash : List Char → Option (List Char × List Char)
  | [] => none
  | '-' :: t => some ([], t)
  | c :: t => (splitAtDash t).map (fun p => (c :: p.1, p.2))

/-- `OU_ID_PATTERN = ^ou-[0-9a-z]{4,32}-[0-9a-z]{8,32}$`. -/
def ouIdMatch (s : String) : Bool :=
  match s.data with
  | 'o' :: 'u' :: '-' :: rest =>
      match splitAtDash rest with
      | none => false
      | some (a, b) =>
          decide (4 ≤ a.length) && decide (a.length ≤ 32)
            && a.all isLowerAlnum
            && decide (8 ≤ b.length) && decide (b.length ≤ 32)
            && b.all isLowerAlnum
  | _ => false

/-- `POLICY_ID_PATTERN = ^p-[0-9a-z]{4,32}$`. -/
def policyIdMatch (s : String) : Bool :=
  match s.data with
  | 'p' :: '-' :: rest =>
      decide (4 ≤ rest.length) && decide (rest.length ≤ 32)
        && rest.all isLowerAlnum
  | _ => false

/-- `validate_account_id` (units.py lines 50-60). -/
def validate_account_id (account_id : String) : Bool :=
  accountIdMatch account_id

/-- `validate_ou_id` (units.py lines 63-73). -/
def validate_ou_id (ou_id : String) : Bool :=
  ouIdMatch ou_id

def DEFAULT_FULL_ACCESS_POLICY_ID : String := "p-FullAWSAccess"

/-! ## Remote client and call traces -/

/-- One remote AWS Organizations API call, identified by method and
arguments. -/
inductive RemoteCall where
  | listRoots
  | describeAccount (accountId : String)
  | describeOU (ouId : String)
  | listTargets (policyId : String)
  | attachPolicy (policyId targetId : String)
  | detachPolicy (policyId targetId : String)
  | deletePolicy (policyId : String)
  | listChildren (parentId : String)
  | listParents (childId : String)
  | moveAccount (accountId sourceParentId destinationParentId : String)
  | createOU (parentId name : String)
  | deleteOU (ouId : String)
deriving DecidableEq

/-- The CloudFormation custom-resource response sent by an operation:
success carries the physical resource id and the `response_data` dictionary
(as an association list), failure carries the reason message. -/
inductive CfnResponse where
  | success (physicalId : String) (data : List (String × String))
  | failure (message : String)
deriving DecidableEq

/-- Result of running one lifecycle operation: the ordered trace of remote
calls issued and the response sent. -/
structure OpResult where
  calls : List RemoteCall
  response : CfnResponse
deriving DecidableEq

/-- The AWS Organizations client, modelled as fixed responses per call.
`roots` is `list_roots` (the list of root ids); `describeAccountRes` /
`describeOURes` are the describe calls (`err m` models a raised exception
whose class name occurs in `m`); `listTargets` returns the `TargetId`s of
`list_targets_for_policy`; the remaining fields model the corresponding
mutating calls. -/
structure OrgClient where
  roots : Outcome (List String)
  describeAccountRes : String → Outcome Unit
  describeOURes : String → Outcome Unit
  listTargets : String → Outcome (List String)
  attachRes : String → String → Outcome Unit
  detachRes : String → String → Outcome Unit
  deletePolicyRes : String → Outcome Unit
  listChildrenRes : String → Outcome (List String)
  listParentsRes : String → Outcome (List String)
  moveRes : String → String → String → Outcome Unit
  createOURes : String → String → Outcome (String × String)
  deleteOURes : String → Outcome Unit

/-- `is_policy_attached_to_target` (scp.py lines 289-316): one
`list_targets_for_policy` call (via `get_policy_attachments`, which
re-raises errors, scp.py lines 256-286, issued directly — not through the
retry engine); any exception is caught and converted to `False`. -/
def is_policy_attached_to_target (policy_id target_id : String)
    (c : OrgClient) : List RemoteCall × Bool :=
  ([RemoteCall.listTargets policy_id],
   match c.listTargets policy_id with
   | .ok targets => targets.contains target_id
   | .err _ => false)

/-- `validate_target_id` (scp.py lines 116-183).  Returns the remote calls
issued and either the resolved target id or the raised error message. -/
def validate_target_id (target_id : String) (c : OrgClient) :
    List RemoteCall × Outcome String :=
  if target_id = "" then
    ([], .err "ValueError: Target ID cannot be empty")
  else if strToLower target_id = "root" then
    -- resolve "root" to the first root id; any failure becomes ValueError
    match c.roots with
    | .err e =>
        ([RemoteCall.listRoots],
         .err ("ValueError: Failed to resolve root ID: " ++ e))
    | .ok [] =>
        ([RemoteCall.listRoots],
         .err "ValueError: Failed to resolve root ID: No organizational roots found")
    | .ok (root_id :: _) => ([RemoteCall.listRoots], .ok root_id)
  else if rootIdMatch target_id then
    -- target_type = "root": verify among list_roots
    match c.roots with
    | .err e =>
        ([RemoteCall.listRoots],
         if strContains (strToLower e) "not found" then .err e
         else .err ("ValueError: Failed to validate target " ++ target_id
                      ++ ": " ++ e))
    | .ok roots =>
        ([RemoteCall.listRoots],
         if roots.contains target_id then .ok target_id
         else .err ("ValueError: Root " ++ target_id ++ " not found"))
  else if accountIdMatch target_id then
    -- target_type = "account": describe_account
    match c.describeAccountRes target_id with
    | .ok _ => ([RemoteCall.describeAccount target_id], .ok target_id)
    | .err e =>
        ([RemoteCall.describeAccount target_id],
         if strContains e "AccountNotFoundException" then
           .err ("ValueError: Account " ++ target_id
                  ++ " not found in organization")
         else if strContains (strToLower e) "not found" then .err e
         else .err ("ValueError: Failed to validate target " ++ target_id
                      ++ ": " ++ e))
  else if ouIdMatch target_id then
    -- target_type = "organizational_unit": describe_organizational_unit
    match c.describeOURes target_id with
    | .ok _ => ([RemoteCall.describeOU target_id], .ok target_id)
    | .err e =>
        ([RemoteCall.describeOU target_id],
         if strContains e "OrganizationalUnitNotFoundException" then
           .err ("ValueError: Organizational Unit " ++ target_id
                  ++ " not found")
         else if strContains (strToLower e) "not found" then .err e
         else .err ("ValueError: Failed to validate target " ++ target_id
                      ++ ": " ++ e))
  else
    ([], .err ("ValueError: Invalid target ID format: " ++ target_id))

/-- `handle_default_policy_attachment` (scp.py lines 319-361): check
whether `p-FullAWSAccess` is already attached; if not, attach it through
the retry engine.  All failures are swallowed (best effort), so only the
call trace is observable. -/
def handle_default_policy_attachment (target_id : String) (c : OrgClient) :
    List RemoteCall :=
  let checked := is_policy_attached_to_target DEFAULT_FULL_ACCESS_POLICY_ID
    target_id c
  if checked.2 then checked.1
  else
    let r := retryConst (c.attachRes DEFAULT_FULL_ACCESS_POLICY_ID target_id)
    checked.1
      ++ List.replicate r.1
          (RemoteCall.attachPolicy DEFAULT_FULL_ACCESS_POLICY_ID target_id)

/-! ## SCP attachment lifecycle operations (scp.py) -/

/-- `create_service_control_policy_attachment` (scp.py lines 623-712).
`logicalId`, `policy_id`, `target_id` are the event fields
(`""` models a missing/empty value, which Python's truthiness checks treat
alike). -/
def create_service_control_policy_attachment (logicalId policy_id target_id :
    String) (c : OrgClient) : OpResult :=
  if policy_id = "" then
    ⟨[], .failure "Validation error creating SCP attachment: PolicyId is required"⟩
  else if target_id = "" then
    ⟨[], .failure "Validation error creating SCP attachment: TargetId is required"⟩
  else if policyIdMatch policy_id = false then
    ⟨[], .failure ("Validation error creating SCP attachment: Invalid policy ID format: "
                    ++ policy_id)⟩
  else
    let vres := validate_target_id target_id c
    match vres.2 with
    | .err e =>
        ⟨vres.1, .failure ("Validation error creating SCP attachment: " ++ e)⟩
    | .ok resolved_target_id =>
        let physical_resource_id := "SCPAttachment-" ++ logicalId
        let att := is_policy_attached_to_target policy_id resolved_target_id c
        if att.2 then
          ⟨vres.1 ++ att.1,
           .success physical_resource_id
             [("PolicyId", policy_id), ("TargetId", resolved_target_id),
              ("Message", "Policy attachment already exists")]⟩
        else
          let r := retryConst (c.attachRes policy_id resolved_target_id)
          let acalls := List.replicate r.1
            (RemoteCall.attachPolicy policy_id resolved_target_id)
          match r.2 with
          | .ok _ =>
              ⟨vres.1 ++ att.1 ++ acalls,
               .success physical_resource_id
                 [("PolicyId", policy_id), ("TargetId", resolved_target_id),
                  ("AttachmentId", physical_resource_id),
                  ("Message", "Service Control Policy attached successfully")]⟩
          | .raised e =>
              ⟨vres.1 ++ att.1 ++ acalls,
               .failure ("Failed to create Service Control Policy attachment: " ++ e)⟩
          | .retryExhausted e =>
              ⟨vres.1 ++ att.1 ++ acalls,
               .failure ("Failed to create Service Control Policy attachment: " ++ e)⟩

/-- `delete_service_control_policy_attachment` (scp.py lines 824-929).
`pid` is the event's `PhysicalResourceId`. -/
def delete_service_control_policy_attachment (pid policy_id target_id :
    String) (c : OrgClient) : OpResult :=
  if pid = "" ∨ strStartsWith pid "Failed/" then
    ⟨[], .success pid
      [("Message", "Skipped deletion - attachment was never created")]⟩
  else if policy_id = "" ∨ target_id = "" then
    ⟨[], .failure "Validation error deleting SCP attachment: PolicyId and TargetId are required"⟩
  else
    let vres := validate_target_id target_id c
    match vres.2 with
    | .err e =>
        ⟨vres.1, .failure ("Validation error deleting SCP attachment: " ++ e)⟩
    | .ok resolved_target_id =>
        let att := is_policy_attached_to_target policy_id resolved_target_id c
        if att.2 = false then
          ⟨vres.1 ++ att.1,
           .success pid
             [("PolicyId", policy_id), ("TargetId", resolved_target_id),
              ("Message", "Policy attachment already deleted")]⟩
        else
          -- last-attachment check: one further get_policy_attachments call;
          -- its failure is caught (warning) and default handling skipped
          let countStep : List RemoteCall :=
            RemoteCall.listTargets policy_id ::
              (match c.listTargets policy_id with
               | .err _ => []
               | .ok attachments =>
                   if attachments.length ≤ 1 then
                     handle_default_policy_attachment resolved_target_id c
                   else [])
          let r := retryConst (c.detachRes policy_id resolved_target_id)
          let dcalls := List.replicate r.1
            (RemoteCall.detachPolicy policy_id resolved_target_id)
          match r.2 with
          | .ok _ =>
              ⟨vres.1 ++ att.1 ++ countStep ++ dcalls,
               .success pid
                 [("PolicyId", policy_id), ("TargetId", resolved_target_id),
                  ("Message", "Service Control Policy attachment deleted successfully")]⟩
          | .raised e =>
              ⟨vres.1 ++ att.1 ++ countStep ++ dcalls,
               .failure ("Failed to delete Service Control Policy attachment: " ++ e)⟩
          | .retryExhausted e =>
              ⟨vres.1 ++ att.1 ++ countStep ++ dcalls,
               .failure ("Failed to delete Service Control Policy attachment: " ++ e)⟩

/-- `delete_service_control_policy` (scp.py lines 544-620).  `policy_id` is
the event's `PhysicalResourceId`. -/
def delete_service_control_policy (policy_id : String) (c : OrgClient) :
    OpResult :=
  if policy_id = "" ∨ strStartsWith policy_id "Failed/" then
    ⟨[], .success policy_id
      [("Message", "Skipped deletion - policy was never created")]⟩
  else if policyIdMatch policy_id = false then
    ⟨[], .failure ("Failed to delete Service Control Policy: Invalid policy ID format: "
                    ++ policy_id)⟩
  else
    -- attachment inspection: PolicyNotFoundException short-circuits to
    -- success, any other listing failure is only logged
    let inspect := [RemoteCall.listTargets policy_id]
    match c.listTargets policy_id with
    | .err e =>
        if strContains e "PolicyNotFoundException" then
          ⟨inspect, .success policy_id [("Message", "Policy already deleted")]⟩
        else
          let r := retryConst (c.deletePolicyRes policy_id)
          let dcalls := List.replicate r.1 (RemoteCall.deletePolicy policy_id)
          match r.2 with
          | .ok _ =>
              ⟨inspect ++ dcalls,
               .success policy_id
                 [("PolicyId", policy_id),
                  ("Message", "Service Control Policy deleted successfully")]⟩
          | .raised e2 =>
              ⟨inspect ++ dcalls,
               .failure ("Failed to delete Service Control Policy: " ++ e2)⟩
          | .retryExhausted e2 =>
              ⟨inspect ++ dcalls,
               .failure ("Failed to delete Service Control Policy: " ++ e2)⟩
    | .ok _ =>
        let r := retryConst (c.deletePolicyRes policy_id)
        let dcalls := List.replicate r.1 (RemoteCall.deletePolicy policy_id)
        match r.2 with
        | .ok _ =>
            ⟨inspect ++ dcalls,
             .success policy_id
               [("PolicyId", policy_id),
                ("Message", "Service Control Policy deleted successfully")]⟩
        | .raised e2 =>
            ⟨inspect ++ dcalls,
             .failure ("Failed to delete Service Control Policy: " ++ e2)⟩
        | .retryExhausted e2 =>
            ⟨inspect ++ dcalls,
             .failure ("Failed to delete Service Control Policy: " ++ e2)⟩

/-! ## Organizational-unit lifecycle operations (units.py) -/

/-- `resolve_parent_id` (units.py lines 76-108): the `"root"` alias is
resolved via `list_roots`; otherwise only the ID shape is checked (no
existence verification). -/
def resolve_parent_id (parent_id : String) (c : OrgClient) :
    List RemoteCall × Outcome String :=
  if strToLower parent_id = "root" then
    match c.roots with
    | .err e =>
        ([RemoteCall.listRoots],
         .err ("ValueError: Failed to resolve root ID: " ++ e))
    | .ok [] =>
        ([RemoteCall.listRoots],
         .err "ValueError: Failed to resolve root ID: No organizational roots found")
    | .ok (root_id :: _) => ([RemoteCall.listRoots], .ok root_id)
  else if rootIdMatch parent_id || ouIdMatch parent_id then ([], .ok parent_id)
  else ([], .err ("ValueError: Invalid parent ID format: " ++ parent_id))

/-- The per-child loop of `move_all_children_to_root` (units.py lines
578-593): each child account is moved by `move_account_with_retry`; the
first failing child's error is re-raised, aborting the loop. -/
def moveChildrenLoop (ou_id root_id : String) (c : OrgClient) :
    List String → List RemoteCall × Outcome Unit
  | [] => ([], .ok ())
  | child_id :: rest =>
      let r := moveRetryConst (c.moveRes child_id ou_id root_id)
      let calls := List.replicate r.1
        (RemoteCall.moveAccount child_id ou_id root_id)
      match r.2 with
      | .ok _ =>
          let next := moveChildrenLoop ou_id root_id c rest
          (calls ++ next.1, next.2)
      | .raised e => (calls, .err e)
      | .retryExhausted e => (calls, .err e)

/-- `move_all_children_to_root` (units.py lines 546-599). -/
def move_all_children_to_root (ou_id : String) (c : OrgClient) :
    List RemoteCall × Outcome Unit :=
  match c.roots with
  | .err e => ([RemoteCall.listRoots], .err e)
  | .ok [] => ([RemoteCall.listRoots], .err "ValueError: No organizational roots found")
  | .ok (root_id :: _) =>
      match c.listChildrenRes ou_id with
      | .err e =>
          ([RemoteCall.listRoots, RemoteCall.listChildren ou_id], .err e)
      | .ok children =>
          if children.isEmpty then
            ([RemoteCall.listRoots, RemoteCall.listChildren ou_id], .ok ())
          else
            let loop := moveChildrenLoop ou_id root_id c children
            (RemoteCall.listRoots :: RemoteCall.listChildren ou_id :: loop.1,
             loop.2)

/-- `delete_organizational_unit` (units.py lines 602-659).  `ou_id` is the
event's `PhysicalResourceId`.  A failure of `move_all_children_to_root` is
caught and logged; the deletion is attempted regardless. -/
def delete_organizational_unit (ou_id : String) (c : OrgClient) : OpResult :=
  if ou_id = "" ∨ strStartsWith ou_id "Failed/" then
    ⟨[], .success ou_id
      [("Message", "Skipped deletion - OU was never created")]⟩
  else if validate_ou_id ou_id = false then
    ⟨[], .failure ("Failed to delete organizational unit: Invalid OU ID format: "
                    ++ ou_id)⟩
  else
    let moved := move_all_children_to_root ou_id c
    let r := retryConst (c.deleteOURes ou_id)
    let dcalls := List.replicate r.1 (RemoteCall.deleteOU ou_id)
    match r.2 with
    | .ok _ =>
        ⟨moved.1 ++ dcalls,
         .success ou_id
           [("Id", ou_id),
            ("Message", "Organizational unit deleted successfully")]⟩
    | .raised e =>
        ⟨moved.1 ++ dcalls,
         .failure ("Failed to delete organizational unit: " ++ e)⟩
    | .retryExhausted e =>
        ⟨moved.1 ++ dcalls,
         .failure ("Failed to delete organizational unit: " ++ e)⟩

/-- One step of an operation that may interleave remote calls with
responses sent to CloudFormation (needed where an operation responds
before it is finished, as `create_organizational_unit` does). -/
inductive Event where
  | call (c : RemoteCall)
  | respond (r : CfnResponse)
deriving DecidableEq

/-- The child-account reconciliation loop of `create_organizational_unit`
(units.py lines 390-422): per child, skip on bad account-id shape, look up
the current parent (`list_parents`, issued directly), skip when no parent
is found, otherwise move via `move_account_with_retry`; every child-level
failure is caught and the loop continues. -/
def childMoveEvents (ou_id : String) (c : OrgClient) :
    List String → List Event
  | [] => []
  | child_id :: rest =>
      let evs :=
        if validate_account_id child_id = false then []
        else
          match c.listParentsRes child_id with
          | .err _ => [Event.call (RemoteCall.listParents child_id)]
          | .ok [] => [Event.call (RemoteCall.listParents child_id)]
          | .ok (current_parent_id :: _) =>
              let r := moveRetryConst (c.moveRes child_id current_parent_id ou_id)
              Event.call (RemoteCall.listParents child_id)
                :: List.replicate r.1
                    (Event.call (RemoteCall.moveAccount child_id
                      current_parent_id ou_id))
      evs ++ childMoveEvents ou_id c rest

/-- `create_organizational_unit` (units.py lines 319-438), as the ordered
trace of remote calls and CloudFormation responses.  The success response
(carrying the new OU's id and ARN) is sent as soon as the remote create
succeeds, before any child movements are processed. -/
def create_organizational_unit (parent_id ou_name : String)
    (children : List String) (c : OrgClient) : List Event :=
  if parent_id = "" then
    [Event.respond (.failure "Validation error creating OU: ParentId is required")]
  else if ou_name = "" then
    [Event.respond (.failure "Validation error creating OU: Name is required")]
  else if strStrip ou_name = "" then
    [Event.respond (.failure "Validation error creating OU: OU name cannot be empty")]
  else
    let pres := resolve_parent_id parent_id c
    match pres.2 with
    | .err e =>
        (pres.1.map Event.call)
          ++ [Event.respond (.failure ("Validation error creating OU: " ++ e))]
    | .ok resolved_parent_id =>
        let r := retryConst (c.createOURes resolved_parent_id ou_name)
        let ccalls := List.replicate r.1
          (Event.call (RemoteCall.createOU resolved_parent_id ou_name))
        match r.2 with
        | .ok (ou_id, ou_arn) =>
            (pres.1.map Event.call) ++ ccalls
              ++ [Event.respond (.success ou_id
                    [("Id", ou_id), ("Arn", ou_arn), ("Name", ou_name),
                     ("ParentId", resolved_parent_id),
                     ("Message", "Organizational unit created successfully")])]
              ++ childMoveEvents ou_id c children
        | .raised e =>
            (pres.1.map Event.call) ++ ccalls
              ++ [Event.respond
                    (.failure ("Failed to create organizational unit: " ++ e))]
        | .retryExhausted e =>
            (pres.1.map Event.call) ++ ccalls
              ++ [Event.respond
                    (.failure ("Failed to create organizational unit: " ++ e))]

/-! ## Policy document validation (scp.py lines 50-113)

JSON values are modelled by `JVal`; Python dicts become association lists
with distinct keys (`json.loads` keeps only the last binding of a repeated
key, so lookups below take the first match of the already-deduplicated
list).  `json.dumps(obj, separators=(",", ":"))` is embedded as
`dumpsCompact`.  `json.loads` itself is not re-implemented; theorems about
the pre-serialized branch take the parse result as an explicit `loads`
oracle. -/

/-- A JSON value. -/
inductive JVal where
  | str (s : String)
  | num (n : Int)
  | bool (b : Bool)
  | null
  | arr (elems : List JVal)
  | obj (fields : List (String × JVal))

/-- Dictionary lookup (`parsed["Version"]`, `"Version" in parsed`). -/
def lookupField (fields : List (String × JVal)) (key : String) :
    Option JVal :=
  match fields with
  | [] => none
  | (k, v) :: rest => if k = key then some v else lookupField rest key

/-- Minimal JSON string escaping as done by `json.dumps` (quotes and
backslashes; other escapes do not occur in the documents treated here). -/
def escapeJsonChar (c : Char) : String :=
  if c = Char.ofNat 34 then "\\\""
  else if c = Char.ofNat 92 then "\\\\"
  else String.singleton c

/-- Serialize a JSON string body. -/
def dumpsString (s : String) : String :=
  "\"" ++ String.join (s.data.map escapeJsonChar) ++ "\""

mutual

/-- `json.dumps(value, separators=(",", ":"))` (scp.py line 70). -/
def dumpsCompact : JVal → String
  | .str s => dumpsString s
  | .num n => toString n
  | .bool b => if b then "true" else "false"
  | .null => "null"
  | .arr elems => "[" ++ ",".intercalate (dumpsElems elems) ++ "]"
  | .obj fields => "\x7b" ++ ",".intercalate (dumpsFields fields) ++ "\x7d"

/-- Serialized forms of the elements of a JSON array. -/
def dumpsElems : List JVal → List String
  | [] => []
  | v :: rest => dumpsCompact v :: dumpsElems rest

/-- Serialized `"key":value` forms of the fields of a JSON object. -/
def dumpsFields : List (String × JVal) → List String
  | [] => []
  | (k, v) :: rest => (dumpsString k ++ ":" ++ dumpsCompact v) :: dumpsFields rest

end

/-- The statement loop of `validate_policy_document` (scp.py lines 92-100):
each statement must be an object whose `Effect` is the string `"Allow"` or
`"Deny"`. -/
def checkStatements : List JVal → Nat → Outcome Unit
  | [], _ => .ok ()
  | s :: rest, i =>
      match s with
      | .obj fields =>
          match lookupField fields "Effect" with
          | none =>
              .err ("ValueError: Statement " ++ toString i
                     ++ " missing required 'Effect' field")
          | some (.str e) =>
              if e = "Allow" ∨ e = "Deny" then
                checkStatements rest (i + 1)
              else
                .err ("ValueError: Statement " ++ toString i
                       ++ " Effect must be 'Allow' or 'Deny'")
          | some _ =>
              .err ("ValueError: Statement " ++ toString i
                     ++ " Effect must be 'Allow' or 'Deny'")
      | _ => .err ("ValueError: Statement " ++ toString i
                    ++ " must be an object")

/-- The structural checks of `validate_policy_document` on the parsed
value (scp.py lines 76-100). -/
def checkDoc (parsed : JVal) : Outcome Unit :=
  match parsed with
  | .obj fields =>
      if (lookupField fields "Version").isNone then
        .err "ValueError: Policy document missing required 'Version' field"
      else
        match lookupField fields "Statement" with
        | none => .err "ValueError: Policy document missing required 'Statement' field"
        | some (.arr stmts) =>
            if stmts.length = 0 then
              .err "ValueError: Policy must contain at least one statement"
            else checkStatements stmts 0
        | some _ => .err "ValueError: Policy 'Statement' must be an array"
  | _ => .err "ValueError: Policy document must be a JSON object"

/-- `validate_policy_document` on a `dict` input (scp.py lines 69-71 then
76-107): serialize with compact separators, check the structure, return
the serialized form. -/
def validate_policy_document_dict (policy_document : JVal) :
    Outcome String :=
  match checkDoc policy_document with
  | .ok _ => .ok (dumpsCompact policy_document)
  | .err e => .err e

/-- `validate_policy_document` on a `str` input (scp.py lines 65-68 then
76-107): parse (`loads` is the oracle for `json.loads`; `none` models a
`JSONDecodeError`), check the structure of the parse result, and return
the ORIGINAL string unchanged (`policy_json = policy_document`). -/
def validate_policy_document_str (policy_document : String)
    (loads : String → Option JVal) : Outcome String :=
  match loads policy_document with
  | none => .err "ValueError: Invalid JSON in policy document"
  | some parsed =>
      match checkDoc parsed with
      | .ok _ => .ok policy_document
      | .err e => .err e

/-- The well-formedness condition of a policy document named by the spec:
a top-level `Version`, a non-empty `Statement` array, every statement an
object whose `Effect` is exactly `"Allow"` or `"Deny"`. -/
def validDoc (v : JVal) : Prop :=
  ∃ fields stmts,
    v = JVal.obj fields ∧
    (lookupField fields "Version").isSome ∧
    lookupField fields "Statement" = some (JVal.arr stmts) ∧
    stmts ≠ [] ∧
    ∀ s ∈ stmts, ∃ sf e, s = JVal.obj sf ∧
      lookupField sf "Effect" = some (JVal.str e) ∧ (e = "Allow" ∨ e = "Deny")

/-! ## Retry-engine lemmas -/

theorem retryGo_attempts_le (retryable : String → Bool) (lo hi : Nat)
    (randint : Nat → Nat → Nat → Nat) (func : Nat → Outcome α) :
    ∀ fuel attempt acc last,
      (retryGo retryable lo hi randint func fuel attempt acc last).attempts
        ≤ attempt + fuel := by
  intro fuel
  induction fuel with
  | zero => intro attempt acc last; simp [retryGo]
  | succ f ih =>
      intro attempt acc last
      simp only [retryGo]
      cases func attempt with
      | ok v => simp
      | err e =>
          by_cases h : retryable e = true
          · simp only [h, if_true]
            have := ih (attempt + 1)
              (if 0 < attempt then randint lo hi attempt :: acc else acc) e
            omega
          · simp only [eq_false_of_ne_true h, if_false]
            simp

theorem retryGo_attempts_lb (retryable : String → Bool) (lo hi : Nat)
    (randint : Nat → Nat → Nat → Nat) (func : Nat → Outcome α) :
    ∀ fuel attempt acc last,
      attempt ≤
        (retryGo retryable lo hi randint func fuel attempt acc last).attempts := by
  intro fuel
  induction fuel with
  | zero => intro attempt acc last; simp [retryGo]
  | succ f ih =>
      intro attempt acc last
      simp only [retryGo]
      cases func attempt with
      | ok v => simp
      | err e =>
          by_cases h : retryable e = true
          · simp only [h, if_true]
            have := ih (attempt + 1)
              (if 0 < attempt then randint lo hi attempt :: acc else acc) e
            omega
          · simp only [eq_false_of_ne_true h, if_false]
            simp

theorem retryGo_attempts_lb1 (retryable : String → Bool) (lo hi : Nat)
    (randint : Nat → Nat → Nat → Nat) (func : Nat → Outcome α)
    (fuel attempt : Nat) (acc : List Nat) (last : String) (hf : 1 ≤ fuel) :
    attempt + 1 ≤
      (retryGo retryable lo hi randint func fuel attempt acc last).attempts := by
  cases fuel with
  | zero => omega
  | succ f =>
      simp only [retryGo]
      cases func attempt with
      | ok v => simp
      | err e =>
          by_cases h : retryable e = true
          · simp only [h, if_true]
            exact retryGo_attempts_lb retryable lo hi randint func f (attempt + 1) _ e
          · simp only [eq_false_of_ne_true h, if_false]
            simp

theorem retryGo_sleeps_len (retryable : String → Bool) (lo hi : Nat)
    (randint : Nat → Nat → Nat → Nat) (func : Nat → Outcome α) :
    ∀ fuel attempt acc last, acc.length = attempt - 1 →
      (retryGo retryable lo hi randint func fuel attempt acc last).sleeps.length
        = (retryGo retryable lo hi randint func fuel attempt acc last).attempts
            - 1 := by
  intro fuel
  induction fuel with
  | zero => intro attempt acc last hlen; simpa [retryGo] using hlen
  | succ f ih =>
      intro attempt acc last hlen
      simp only [retryGo]
      have hlen2 :
          (if 0 < attempt then randint lo hi attempt :: acc else acc).length
            = (attempt + 1) - 1 := by
        by_cases h0 : 0 < attempt
        · simp [h0, hlen]; omega
        · simp [h0, hlen]; omega
      cases func attempt with
      | ok v => simpa using hlen2
      | err e =>
          by_cases h : retryable e = true
          · simp only [h, if_true]
            exact ih (attempt + 1) _ e hlen2
          · simp only [eq_false_of_ne_true h, if_false]
            simpa using hlen2

theorem retryGo_sleeps_range (retryable : String → Bool) (lo hi : Nat)
    (randint : Nat → Nat → Nat → Nat) (func : Nat → Outcome α)
    (hr : ∀ n, lo ≤ randint lo hi n ∧ randint lo hi n ≤ hi) :
    ∀ fuel attempt acc last, (∀ d ∈ acc, lo ≤ d ∧ d ≤ hi) →
      ∀ d ∈ (retryGo retryable lo hi randint func fuel attempt acc last).sleeps,
        lo ≤ d ∧ d ≤ hi := by
  intro fuel
  induction fuel with
  | zero =>
      intro attempt acc last hacc d hd
      simp only [retryGo, List.mem_reverse] at hd
      exact hacc d hd
  | succ f ih =>
      intro attempt acc last hacc
      have hacc2 : ∀ d ∈ (if 0 < attempt then randint lo hi attempt :: acc
          else acc), lo ≤ d ∧ d ≤ hi := by
        by_cases h0 : 0 < attempt
        · simp only [h0, if_true]
          intro d hd
          rcases List.mem_cons.mp hd with h | h
          · subst h; exact hr attempt
          · exact hacc d h
        · simpa [h0] using hacc
      simp only [retryGo]
      cases func attempt with
      | ok v =>
          intro d hd
          exact hacc2 d (by simpa using hd)
      | err e =>
          by_cases h : retryable e = true
          · simp only [h, if_true]
            exact ih (attempt + 1) _ e hacc2
          · simp only [eq_false_of_ne_true h, if_false]
            intro d hd
            exact hacc2 d (by simpa using hd)

theorem retryGo_terminal (retryable : String → Bool) (lo hi : Nat)
    (randint : Nat → Nat → Nat → Nat) (func : Nat → Outcome α) :
    ∀ fuel attempt acc last k e, attempt ≤ k → k < attempt + fuel →
      (∀ j, attempt ≤ j → j < k →
        ∃ e2, func j = .err e2 ∧ retryable e2 = true) →
      func k = .err e → retryable e = false →
      (retryGo retryable lo hi randint func fuel attempt acc last).attempts
          = k + 1 ∧
      (retryGo retryable lo hi randint func fuel attempt acc last).outcome
          = .raised e := by
  intro fuel
  induction fuel with
  | zero => intro attempt acc last k e h1 h2; omega
  | succ f ih =>
      intro attempt acc last k e h1 h2 hpre hk hnr
      rcases Nat.eq_or_lt_of_le h1 with heq | hlt
      · subst heq
        simp [retryGo, hk, hnr]
      · obtain ⟨e2, he2, hr2⟩ := hpre attempt (le_refl attempt) hlt
        simp only [retryGo, he2, hr2, if_true]
        exact ih (attempt + 1) _ e2 k e hlt (by omega)
          (fun j hj1 hj2 => hpre j (by omega) hj2) hk hnr

theorem retryGo_exhaust (retryable : String → Bool) (lo hi : Nat)
    (randint : Nat → Nat → Nat → Nat) (func : Nat → Outcome α)
    (m : Nat → String) :
    ∀ fuel attempt acc last, 1 ≤ fuel →
      (∀ j, attempt ≤ j → j < attempt + fuel →
        func j = .err (m j) ∧ retryable (m j) = true) →
      (retryGo retryable lo hi randint func fuel attempt acc last).attempts
          = attempt + fuel ∧
      (retryGo retryable lo hi randint func fuel attempt acc last).outcome
          = .raised (m (attempt + fuel - 1)) := by
  intro fuel
  induction fuel with
  | zero => intro attempt acc last h1; omega
  | succ f ih =>
      intro attempt acc last _ hall
      obtain ⟨hcur, hrcur⟩ := hall attempt (le_refl attempt) (by omega)
      simp only [retryGo]
      rw [hcur]
      simp only [hrcur, if_true]
      cases f with
      | zero => simp [retryGo]
      | succ f2 =>
          have := ih (attempt + 1) (if 0 < attempt then
              randint lo hi attempt :: acc else acc) (m attempt)
            (by omega) (fun j hj1 hj2 => hall j (by omega) (by omega))
          refine ⟨?_, ?_⟩
          · rw [this.1]
            omega
          · rw [this.2]
            have h9 : attempt + 1 + (f2 + 1) - 1 = attempt + (f2 + 1 + 1) - 1 := by
              omega
            rw [h9]

theorem moveGo_attempts_le (randint : Nat → Nat → Nat → Nat)
    (func : Nat → Outcome Unit) :
    ∀ fuel attempt acc,
      (moveGo randint func fuel attempt acc).attempts ≤ attempt + fuel := by
  intro fuel
  induction fuel with
  | zero => intro attempt acc; simp [moveGo]
  | succ f ih =>
      intro attempt acc
      simp only [moveGo]
      cases func attempt with
      | ok v => simp
      | err e =>
          by_cases h : is_retryable_move e = false ∨
              attempt = MAX_RETRY_ATTEMPTS - 1
          · simp only [if_pos h]
            simp
          · simp only [if_neg h]
            have := ih (attempt + 1) (if 0 < attempt then
              randint CHILD_MOVE_MIN_DELAY CHILD_MOVE_MAX_DELAY attempt :: acc
              else acc)
            omega

theorem moveGo_attempts_lb (randint : Nat → Nat → Nat → Nat)
    (func : Nat → Outcome Unit) :
    ∀ fuel attempt acc,
      attempt ≤ (moveGo randint func fuel attempt acc).attempts := by
  intro fuel
  induction fuel with
  | zero => intro attempt acc; simp [moveGo]
  | succ f ih =>
      intro attempt acc
      simp only [moveGo]
      cases func attempt with
      | ok v => simp
      | err e =>
          by_cases h : is_retryable_move e = false ∨
              attempt = MAX_RETRY_ATTEMPTS - 1
          · simp only [if_pos h]
            simp
          · simp only [if_neg h]
            have := ih (attempt + 1) (if 0 < attempt then
              randint CHILD_MOVE_MIN_DELAY CHILD_MOVE_MAX_DELAY attempt :: acc
              else acc)
            omega

theorem moveGo_attempts_lb1 (randint : Nat → Nat → Nat → Nat)
    (func : Nat → Outcome Unit) (fuel attempt : Nat) (acc : List Nat)
    (hf : 1 ≤ fuel) :
    attempt + 1 ≤ (moveGo randint func fuel attempt acc).attempts := by
  cases fuel with
  | zero => omega
  | succ f =>
      simp only [moveGo]
      cases func attempt with
      | ok v => simp
      | err e =>
          by_cases h : is_retryable_move e = false ∨
              attempt = MAX_RETRY_ATTEMPTS - 1
          · simp only [if_pos h]
            simp
          · simp only [if_neg h]
            exact moveGo_attempts_lb randint func f (attempt + 1) _

theorem moveGo_sleeps_len (randint : Nat → Nat → Nat → Nat)
    (func : Nat → Outcome Unit) :
    ∀ fuel attempt acc, acc.length = attempt - 1 →
      (moveGo randint func fuel attempt acc).sleeps.length
        = (moveGo randint func fuel attempt acc).attempts - 1 := by
  intro fuel
  induction fuel with
  | zero => intro attempt acc hlen; simpa [moveGo] using hlen
  | succ f ih =>
      intro attempt acc hlen
      simp only [moveGo]
      have hlen2 : (if 0 < attempt then
          randint CHILD_MOVE_MIN_DELAY CHILD_MOVE_MAX_DELAY attempt :: acc
          else acc).length = (attempt + 1) - 1 := by
        by_cases h0 : 0 < attempt
        · simp [h0, hlen]; omega
        · simp [h0, hlen]; omega
      cases func attempt with
      | ok v => simpa using hlen2
      | err e =>
          by_cases h : is_retryable_move e = false ∨
              attempt = MAX_RETRY_ATTEMPTS - 1
          · simp only [if_pos h]
            simpa using hlen2
          · simp only [if_neg h]
            exact ih (attempt + 1) _ hlen2

theorem moveGo_sleeps_range (randint : Nat → Nat → Nat → Nat)
    (func : Nat → Outcome Unit)
    (hr : ∀ n, CHILD_MOVE_MIN_DELAY ≤
        randint CHILD_MOVE_MIN_DELAY CHILD_MOVE_MAX_DELAY n ∧
        randint CHILD_MOVE_MIN_DELAY CHILD_MOVE_MAX_DELAY n
          ≤ CHILD_MOVE_MAX_DELAY) :
    ∀ fuel attempt acc,
      (∀ d ∈ acc, CHILD_MOVE_MIN_DELAY ≤ d ∧ d ≤ CHILD_MOVE_MAX_DELAY) →
      ∀ d ∈ (moveGo randint func fuel attempt acc).sleeps,
        CHILD_MOVE_MIN_DELAY ≤ d ∧ d ≤ CHILD_MOVE_MAX_DELAY := by
  intro fuel
  induction fuel with
  | zero =>
      intro attempt acc hacc d hd
      simp only [moveGo, List.mem_reverse] at hd
      exact hacc d hd
  | succ f ih =>
      intro attempt acc hacc
      have hacc2 : ∀ d ∈ (if 0 < attempt then
          randint CHILD_MOVE_MIN_DELAY CHILD_MOVE_MAX_DELAY attempt :: acc
          else acc), CHILD_MOVE_MIN_DELAY ≤ d ∧ d ≤ CHILD_MOVE_MAX_DELAY := by
        by_cases h0 : 0 < attempt
        · simp only [h0, if_true]
          intro d hd
          rcases List.mem_cons.mp hd with h | h
          · subst h; exact hr attempt
          · exact hacc d h
        · simpa [h0] using hacc
      simp only [moveGo]
      cases func attempt with
      | ok v =>
          intro d hd
          exact hacc2 d (by simpa using hd)
      | err e =>
          by_cases h : is_retryable_move e = false ∨
              attempt = MAX_RETRY_ATTEMPTS - 1
          · simp only [if_pos h]
            intro d hd
            exact hacc2 d (by simpa using hd)
          · simp only [if_neg h]
            exact ih (attempt + 1) _ hacc2

theorem moveGo_terminal (randint : Nat → Nat → Nat → Nat)
    (func : Nat → Outcome Unit) :
    ∀ fuel attempt acc k e, attempt ≤ k → k < attempt + fuel →
      k ≤ MAX_RETRY_ATTEMPTS - 1 →
      (∀ j, attempt ≤ j → j < k →
        ∃ e2, func j = .err e2 ∧ is_retryable_move e2 = true) →
      func k = .err e → is_retryable_move e = false →
      (moveGo randint func fuel attempt acc).attempts = k + 1 ∧
      (moveGo randint func fuel attempt acc).outcome = .raised e := by
  intro fuel
  induction fuel with
  | zero => intro attempt acc k e h1 h2; omega
  | succ f ih =>
      intro attempt acc k e h1 h2 hk9 hpre hk hnr
      rcases Nat.eq_or_lt_of_le h1 with heq | hlt
      · subst heq
        simp [moveGo, hk, hnr]
      · obtain ⟨e2, he2, hr2⟩ := hpre attempt (le_refl attempt) hlt
        have hcond : ¬(is_retryable_move e2 = false ∨
            attempt = MAX_RETRY_ATTEMPTS - 1) := by
          simp only [MAX_RETRY_ATTEMPTS] at hk9 ⊢
          push_neg
          exact ⟨by simp [hr2], by omega⟩
        simp only [moveGo, he2, if_neg hcond]
        exact ih (attempt + 1) _ k e hlt (by omega) hk9
          (fun j hj1 hj2 => hpre j (by omega) hj2) hk hnr

theorem moveGo_exhaust (randint : Nat → Nat → Nat → Nat)
    (func : Nat → Outcome Unit) (m : Nat → String) :
    ∀ fuel attempt acc, fuel + attempt = MAX_RETRY_ATTEMPTS → 1 ≤ fuel →
      (∀ j, attempt ≤ j → j < MAX_RETRY_ATTEMPTS →
        func j = .err (m j) ∧ is_retryable_move (m j) = true) →
      (moveGo randint func fuel attempt acc).attempts = MAX_RETRY_ATTEMPTS ∧
      (moveGo randint func fuel attempt acc).outcome
        = .raised (m (MAX_RETRY_ATTEMPTS - 1)) := by
  intro fuel
  induction fuel with
  | zero => intro attempt acc h1 h2; omega
  | succ f ih =>
      intro attempt acc hsum _ hall
      obtain ⟨hcur, hrcur⟩ := hall attempt (le_refl attempt)
        (by simp only [MAX_RETRY_ATTEMPTS] at hsum ⊢; omega)
      cases f with
      | zero =>
          have h9 : attempt = MAX_RETRY_ATTEMPTS - 1 := by
            simp only [MAX_RETRY_ATTEMPTS] at hsum ⊢; omega
          have hcond : is_retryable_move (m attempt) = false ∨
              attempt = MAX_RETRY_ATTEMPTS - 1 := Or.inr h9
          simp only [moveGo, hcur, if_pos hcond]
          refine ⟨by simp only [MAX_RETRY_ATTEMPTS] at hsum ⊢; omega, ?_⟩
          rw [h9]
      | succ f2 =>
          have hcond : ¬(is_retryable_move (m attempt) = false ∨
              attempt = MAX_RETRY_ATTEMPTS - 1) := by
            simp only [MAX_RETRY_ATTEMPTS] at hsum ⊢
            push_neg
            exact ⟨by simp [hrcur], by omega⟩
          simp only [moveGo, hcur, if_neg hcond]
          exact ih (attempt + 1) _ (by omega) (by omega)
            (fun j hj1 hj2 => hall j (by omega) hj2)

/-! ## Constant-result retry characterizations -/

theorem retryConst_ok (v : α) :
    retryConst (Outcome.ok v) = (1, RetryOutcome.ok v) := rfl

theorem retryConst_err_terminal (e : String) (h : is_retryable e = false) :
    retryConst (Outcome.err e : Outcome α) = (1, RetryOutcome.raised e) := by
  have := retryGo_terminal is_retryable MIN_RETRY_DELAY MAX_RETRY_DELAY
    (fun lo _ _ => lo) (fun _ => (Outcome.err e : Outcome α))
    MAX_RETRY_ATTEMPTS 0 [] "" 0 e (le_refl 0)
    (by simp [MAX_RETRY_ATTEMPTS]) (by intro j h1 h2; omega) rfl h
  simp [retryConst, retry_with_backoff, this.1, this.2]

theorem retryConst_err_retryable (e : String) (h : is_retryable e = true) :
    retryConst (Outcome.err e : Outcome α)
      = (MAX_RETRY_ATTEMPTS, RetryOutcome.raised e) := by
  have := retryGo_exhaust is_retryable MIN_RETRY_DELAY MAX_RETRY_DELAY
    (fun lo _ _ => lo) (fun _ => (Outcome.err e : Outcome α)) (fun _ => e)
    MAX_RETRY_ATTEMPTS 0 [] "" (by simp [MAX_RETRY_ATTEMPTS])
    (by intro j h1 h2; exact ⟨rfl, h⟩)
  simp only [Nat.zero_add] at this
  simp [retryConst, retry_with_backoff, this.1, this.2]

theorem retryConst_pos (r : Outcome α) : 1 ≤ (retryConst r).1 := by
  cases r with
  | ok v => rw [retryConst_ok]
  | err e =>
      by_cases h : is_retryable e = true
      · rw [retryConst_err_retryable e h]
        simp [MAX_RETRY_ATTEMPTS]
      · rw [retryConst_err_terminal e (eq_false_of_ne_true h)]

theorem moveRetryConst_ok :
    moveRetryConst (Outcome.ok ()) = (1, RetryOutcome.ok ()) := rfl

theorem moveRetryConst_err_terminal (e : String)
    (h : is_retryable_move e = false) :
    moveRetryConst (Outcome.err e) = (1, RetryOutcome.raised e) := by
  have := moveGo_terminal (fun lo _ _ => lo) (fun _ => Outcome.err e)
    MAX_RETRY_ATTEMPTS 0 [] 0 e (le_refl 0) (by simp [MAX_RETRY_ATTEMPTS])
    (by simp [MAX_RETRY_ATTEMPTS]) (by intro j h1 h2; omega) rfl h
  simp [moveRetryConst, move_account_with_retry, this.1, this.2]

theorem moveRetryConst_err_retryable (e : String)
    (h : is_retryable_move e = true) :
    moveRetryConst (Outcome.err e)
      = (MAX_RETRY_ATTEMPTS, RetryOutcome.raised e) := by
  have := moveGo_exhaust (fun lo _ _ => lo) (fun _ => Outcome.err e)
    (fun _ => e) MAX_RETRY_ATTEMPTS 0 [] (by omega)
    (by simp [MAX_RETRY_ATTEMPTS]) (by intro j h1 h2; exact ⟨rfl, h⟩)
  simp [moveRetryConst, move_account_with_retry, this.1, this.2]

theorem moveRetryConst_pos (r : Outcome Unit) : 1 ≤ (moveRetryConst r).1 := by
  cases r with
  | ok v => rw [show Outcome.ok v = Outcome.ok () from rfl, moveRetryConst_ok]
  | err e =>
      by_cases h : is_retryable_move e = true
      · rw [moveRetryConst_err_retryable e h]
        simp [MAX_RETRY_ATTEMPTS]
      · rw [moveRetryConst_err_terminal e (eq_false_of_ne_true h)]

/-- Does a retry outcome carry the dedicated exhaustion tag? -/
def isRetryExhausted : RetryOutcome α → Bool
  | .retryExhausted _ => true
  | _ => false

theorem retryGo_retryable_first (retryable : String → Bool) (lo hi : Nat)
    (randint : Nat → Nat → Nat → Nat) (func : Nat → Outcome α)
    (fuel attempt : Nat) (acc : List Nat) (last e : String)
    (hf : 2 ≤ fuel) (he : func attempt = .err e) (hr : retryable e = true) :
    attempt + 2 ≤
      (retryGo retryable lo hi randint func fuel attempt acc last).attempts := by
  cases fuel with
  | zero => omega
  | succ f =>
      simp only [retryGo, he, hr, if_true]
      have := retryGo_attempts_lb1 retryable lo hi randint func f (attempt + 1)
        (if 0 < attempt then randint lo hi attempt :: acc else acc) e
        (by omega)
      omega

theorem moveGo_retryable_first (randint : Nat → Nat → Nat → Nat)
    (func : Nat → Outcome Unit) (fuel attempt : Nat) (acc : List Nat)
    (e : String) (hf : 2 ≤ fuel) (he : func attempt = .err e)
    (hr : is_retryable_move e = true)
    (h9 : attempt ≠ MAX_RETRY_ATTEMPTS - 1) :
    attempt + 2 ≤ (moveGo randint func fuel attempt acc).attempts := by
  cases fuel with
  | zero => omega
  | succ f =>
      have hcond : ¬(is_retryable_move e = false ∨
          attempt = MAX_RETRY_ATTEMPTS - 1) := by
        push_neg
        exact ⟨by simp [hr], h9⟩
      simp only [moveGo, he, if_neg hcond]
      have := moveGo_attempts_lb1 randint func f (attempt + 1)
        (if 0 < attempt then
          randint CHILD_MOVE_MIN_DELAY CHILD_MOVE_MAX_DELAY attempt :: acc
          else acc) (by omega)
      omega

/-- C1: every operation run through the retry engine makes at most 10
attempts; no sleep happens before the first attempt and exactly one delay,
drawn from the configured range ([5,30] generally, [5,20] for the
account-move loop), precedes every later attempt; a failure whose message
matches no retryable kind is raised immediately with no further attempts,
whichever attempt it occurs on. -/
theorem retry_engine_attempt_and_delay_bounds (α : Type)
    (func : Nat → Outcome α) (mfunc : Nat → Outcome Unit)
    (randint : Nat → Nat → Nat → Nat)
    (hrand : ∀ lo hi n, lo ≤ hi →
      lo ≤ randint lo hi n ∧ randint lo hi n ≤ hi) :
    (retry_with_backoff func randint).attempts ≤ MAX_RETRY_ATTEMPTS ∧
    (retry_with_backoff func randint).sleeps.length
      = (retry_with_backoff func randint).attempts - 1 ∧
    1 ≤ (retry_with_backoff func randint).attempts ∧
    (∀ d ∈ (retry_with_backoff func randint).sleeps,
      MIN_RETRY_DELAY ≤ d ∧ d ≤ MAX_RETRY_DELAY) ∧
    (∀ k e, k < MAX_RETRY_ATTEMPTS →
      (∀ j, j < k → ∃ e2, func j = .err e2 ∧ is_retryable e2 = true) →
      func k = .err e → is_retryable e = false →
      (retry_with_backoff func randint).attempts = k + 1 ∧
      (retry_with_backoff func randint).outcome = .raised e) ∧
    (move_account_with_retry mfunc randint).attempts ≤ MAX_RETRY_ATTEMPTS ∧
    (move_account_with_retry mfunc randint).sleeps.length
      = (move_account_with_retry mfunc randint).attempts - 1 ∧
    1 ≤ (move_account_with_retry mfunc randint).attempts ∧
    (∀ d ∈ (move_account_with_retry mfunc randint).sleeps,
      CHILD_MOVE_MIN_DELAY ≤ d ∧ d ≤ CHILD_MOVE_MAX_DELAY) ∧
    (∀ k e, k < MAX_RETRY_ATTEMPTS →
      (∀ j, j < k → ∃ e2, mfunc j = .err e2 ∧ is_retryable_move e2 = true) →
      mfunc k = .err e → is_retryable_move e = false →
      (move_account_with_retry mfunc randint).attempts = k + 1 ∧
      (move_account_with_retry mfunc randint).outcome = .raised e) := by
  have hM : MAX_RETRY_ATTEMPTS = 10 := rfl
  refine ⟨?_, ?_, ?_, ?_, ?_, ?_, ?_, ?_, ?_, ?_⟩
  · have := retryGo_attempts_le is_retryable MIN_RETRY_DELAY MAX_RETRY_DELAY
      randint func MAX_RETRY_ATTEMPTS 0 [] ""
    simpa [retry_with_backoff] using this
  · exact retryGo_sleeps_len is_retryable MIN_RETRY_DELAY MAX_RETRY_DELAY
      randint func MAX_RETRY_ATTEMPTS 0 [] "" rfl
  · have := retryGo_attempts_lb1 is_retryable MIN_RETRY_DELAY MAX_RETRY_DELAY
      randint func MAX_RETRY_ATTEMPTS 0 [] "" (by rw [hM]; omega)
    simpa [retry_with_backoff] using this
  · exact retryGo_sleeps_range is_retryable MIN_RETRY_DELAY MAX_RETRY_DELAY
      randint func
      (fun n => hrand MIN_RETRY_DELAY MAX_RETRY_DELAY n (by decide))
      MAX_RETRY_ATTEMPTS 0 [] "" (by intro d hd; cases hd)
  · intro k e hk hpre hke hnr
    exact retryGo_terminal is_retryable MIN_RETRY_DELAY MAX_RETRY_DELAY
      randint func MAX_RETRY_ATTEMPTS 0 [] "" k e (Nat.zero_le k)
      (by omega) (fun j hj1 hj2 => hpre j hj2) hke hnr
  · have := moveGo_attempts_le randint mfunc MAX_RETRY_ATTEMPTS 0 []
    simpa [move_account_with_retry] using this
  · exact moveGo_sleeps_len randint mfunc MAX_RETRY_ATTEMPTS 0 [] rfl
  · have := moveGo_attempts_lb1 randint mfunc MAX_RETRY_ATTEMPTS 0 []
      (by rw [hM]; omega)
    simpa [move_account_with_retry] using this
  · exact moveGo_sleeps_range randint mfunc
      (fun n => hrand CHILD_MOVE_MIN_DELAY CHILD_MOVE_MAX_DELAY n (by decide))
      MAX_RETRY_ATTEMPTS 0 [] (by intro d hd; cases hd)
  · intro k e hk hpre hke hnr
    exact moveGo_terminal randint mfunc MAX_RETRY_ATTEMPTS 0 [] k e
      (Nat.zero_le k) (by omega) (by rw [hM] at hk ⊢; omega)
      (fun j hj1 hj2 => hpre j hj2) hke hnr

/-- Witness for `retry_engine_attempt_and_delay_bounds` at a concrete
operation and delay oracle. -/
theorem retry_engine_attempt_and_delay_bounds_witness :
    (retry_with_backoff (fun _ => Outcome.ok ()) (fun lo _ _ => lo)).attempts
        ≤ MAX_RETRY_ATTEMPTS ∧
    (move_account_with_retry (fun _ => Outcome.ok ())
        (fun lo _ _ => lo)).attempts ≤ MAX_RETRY_ATTEMPTS := by
  have h := retry_engine_attempt_and_delay_bounds Unit (fun _ => Outcome.ok ())
    (fun _ => Outcome.ok ()) (fun lo _ _ => lo)
    (fun lo hi n hle => ⟨le_refl lo, hle⟩)
  exact ⟨h.1, h.2.2.2.2.2.1⟩

/-- C2 counterexample: an operation failing with a retryable
`ConcurrentModificationException` on all 10 attempts exhausts the cap, yet
the engine raises the plain last error — no `RetryExhaustedError`-style tag
is ever produced. -/
theorem retry_exhaustion_untagged_counterexample :
    (retry_with_backoff
        (fun _ => (Outcome.err "ConcurrentModificationException" : Outcome Unit))
        (fun lo _ _ => lo)).attempts = MAX_RETRY_ATTEMPTS ∧
    (retry_with_backoff
        (fun _ => (Outcome.err "ConcurrentModificationException" : Outcome Unit))
        (fun lo _ _ => lo)).outcome
      = RetryOutcome.raised "ConcurrentModificationException" ∧
    isRetryExhausted (retry_with_backoff
        (fun _ => (Outcome.err "ConcurrentModificationException" : Outcome Unit))
        (fun lo _ _ => lo)).outcome = false := by
  have h : is_retryable "ConcurrentModificationException" = true := by decide
  have hc := retryConst_err_retryable (α := Unit)
    "ConcurrentModificationException" h
  have h1 := congrArg Prod.fst hc
  have h2 := congrArg Prod.snd hc
  simp only [retryConst] at h1 h2
  exact ⟨h1, h2, by rw [h2]; rfl⟩

/-- C2 amended: when the attempt cap is exhausted with only retryable
errors observed, the engine raises the LAST OBSERVED ERROR UNCHANGED
(`raise last_exception`); no dedicated exhaustion tag exists, so the
"exhausted retries" case is distinguishable only through logs or the
retryable-kind error message, not through a `RetryExhaustedError` value. -/
theorem retry_exhaustion_raises_last_error (α : Type) (func : Nat → Outcome α)
    (randint : Nat → Nat → Nat → Nat) (m : Nat → String)
    (hall : ∀ j, j < MAX_RETRY_ATTEMPTS →
      func j = .err (m j) ∧ is_retryable (m j) = true) :
    (retry_with_backoff func randint).attempts = MAX_RETRY_ATTEMPTS ∧
    (retry_with_backoff func randint).outcome
      = .raised (m (MAX_RETRY_ATTEMPTS - 1)) ∧
    isRetryExhausted (retry_with_backoff func randint).outcome = false := by
  have := retryGo_exhaust is_retryable MIN_RETRY_DELAY MAX_RETRY_DELAY
    randint func m MAX_RETRY_ATTEMPTS 0 [] ""
    (by rw [show MAX_RETRY_ATTEMPTS = 10 from rfl]; omega)
    (fun j hj1 hj2 => hall j (by simpa using hj2))
  simp only [Nat.zero_add] at this
  refine ⟨this.1, this.2, ?_⟩
  have h2 : (retry_with_backoff func randint).outcome
      = RetryOutcome.raised (m (MAX_RETRY_ATTEMPTS - 1)) := this.2
  rw [h2]
  rfl

/-- Witness for `retry_exhaustion_raises_last_error` on a concrete
always-throttled operation. -/
theorem retry_exhaustion_raises_last_error_witness :
    (retry_with_backoff (fun _ => (Outcome.err "ThrottlingException" : Outcome Unit))
        (fun lo _ _ => lo)).attempts = MAX_RETRY_ATTEMPTS ∧
    (retry_with_backoff (fun _ => (Outcome.err "ThrottlingException" : Outcome Unit))
        (fun lo _ _ => lo)).outcome
      = .raised "ThrottlingException" := by
  have h := retry_exhaustion_raises_last_error Unit
    (fun _ => Outcome.err "ThrottlingException") (fun lo _ _ => lo)
    (fun _ => "ThrottlingException")
    (fun j hj => ⟨rfl, by show is_retryable "ThrottlingException" = true
                          decide⟩)
  exact ⟨h.1, h.2.1⟩

/-- C3 counterexample: `ThrottlingException` matches the five-kind
transient set, yet the single-account move operation raises it immediately
on the first attempt — the move loop recognises only concurrent-modification
and policy-in-use as retryable. -/
theorem move_retry_classification_counterexample :
    is_retryable "ThrottlingException" = true ∧
    is_retryable_move "ThrottlingException" = false ∧
    (move_account_with_retry (fun _ => Outcome.err "ThrottlingException")
        (fun lo _ _ => lo)).attempts = 1 ∧
    (move_account_with_retry (fun _ => Outcome.err "ThrottlingException")
        (fun lo _ _ => lo)).outcome
      = RetryOutcome.raised "ThrottlingException" := by decide

/-- C3 amended: the generic retry engine classifies a failure as retryable
exactly when its message matches one of the five transient-conflict kinds,
while the single-account move loop uses only the two kinds
concurrent-modification and policy-in-use; in both loops a first-attempt
failure leads to exactly one attempt precisely when it is classified
terminal. -/
theorem retry_classification_behaviour (α : Type) (func : Nat → Outcome α)
    (mfunc : Nat → Outcome Unit) (randint : Nat → Nat → Nat → Nat)
    (e e2 : String) (hf : func 0 = .err e) (hm : mfunc 0 = .err e2) :
    ((retry_with_backoff func randint).attempts = 1 ↔
      is_retryable e = false) ∧
    ((move_account_with_retry mfunc randint).attempts = 1 ↔
      is_retryable_move e2 = false) ∧
    is_retryable e = (strContains e "ConcurrentModificationException"
      || strContains e "PolicyInUseException"
      || strContains e "TooManyRequestsException"
      || strContains e "ServiceException"
      || strContains e "ThrottlingException") ∧
    is_retryable_move e2 = (strContains e2 "PolicyInUseException"
      || strContains e2 "ConcurrentModificationException") := by
  have hM : MAX_RETRY_ATTEMPTS = 10 := rfl
  refine ⟨⟨?_, ?_⟩, ⟨?_, ?_⟩, ?_, ?_⟩
  · intro h1
    by_contra hne
    have hr : is_retryable e = true := by
      cases hv : is_retryable e
      · exact absurd hv hne
      · rfl
    have := retryGo_retryable_first is_retryable MIN_RETRY_DELAY
      MAX_RETRY_DELAY randint func MAX_RETRY_ATTEMPTS 0 [] "" e
      (by rw [hM]; omega) hf hr
    have h2 : (retry_with_backoff func randint).attempts =
        (retryGo is_retryable MIN_RETRY_DELAY MAX_RETRY_DELAY randint func
          MAX_RETRY_ATTEMPTS 0 [] "").attempts := rfl
    omega
  · intro h
    have := retryGo_terminal is_retryable MIN_RETRY_DELAY MAX_RETRY_DELAY
      randint func MAX_RETRY_ATTEMPTS 0 [] "" 0 e (le_refl 0)
      (by rw [hM]; omega) (by intro j hj1 hj2; omega) hf h
    exact this.1
  · intro h1
    by_contra hne
    have hr : is_retryable_move e2 = true := by
      cases hv : is_retryable_move e2
      · exact absurd hv hne
      · rfl
    have := moveGo_retryable_first randint mfunc MAX_RETRY_ATTEMPTS 0 [] e2
      (by rw [hM]; omega) hm hr (by rw [hM]; omega)
    have h2 : (move_account_with_retry mfunc randint).attempts =
        (moveGo randint mfunc MAX_RETRY_ATTEMPTS 0 []).attempts := rfl
    omega
  · intro h
    have := moveGo_terminal randint mfunc MAX_RETRY_ATTEMPTS 0 [] 0 e2
      (le_refl 0) (by rw [hM]; omega) (by rw [hM]; omega)
      (by intro j hj1 hj2; omega) hm h
    exact this.1
  · simp [is_retryable, retryableErrors, List.any, Bool.or_assoc]
  · simp [is_retryable_move, moveRetryableErrors, List.any, Bool.or_assoc]

/-- Witness for `retry_classification_behaviour` at concrete first-attempt
failures. -/
theorem retry_classification_behaviour_witness :
    ((retry_with_backoff (fun _ => (Outcome.err "AccessDenied" : Outcome Unit))
        (fun lo _ _ => lo)).attempts = 1 ↔
      is_retryable "AccessDenied" = false) ∧
    ((move_account_with_retry (fun _ => Outcome.err "ThrottlingException")
        (fun lo _ _ => lo)).attempts = 1 ↔
      is_retryable_move "ThrottlingException" = false) := by
  have h := retry_classification_behaviour Unit
    (fun _ => Outcome.err "AccessDenied")
    (fun _ => Outcome.err "ThrottlingException") (fun lo _ _ => lo)
    "AccessDenied" "ThrottlingException" rfl rfl
  exact ⟨h.1, h.2.1⟩

/-! ## Operation-level helper lemmas -/

theorem validate_target_id_calls_cases (tid : String) (c : OrgClient) :
    (validate_target_id tid c).1 = [] ∨
    (validate_target_id tid c).1 = [RemoteCall.listRoots] ∨
    (validate_target_id tid c).1 = [RemoteCall.describeAccount tid] ∨
    (validate_target_id tid c).1 = [RemoteCall.describeOU tid] := by
  unfold validate_target_id
  repeat' split
  all_goals simp

theorem resolve_parent_id_calls_cases (pid : String) (c : OrgClient) :
    (resolve_parent_id pid c).1 = [] ∨
    (resolve_parent_id pid c).1 = [RemoteCall.listRoots] := by
  unfold resolve_parent_id
  repeat' split
  all_goals simp

theorem moveChildrenLoop_ok (ou_id root_id : String) (c : OrgClient) :
    ∀ l, (∀ ch ∈ l, c.moveRes ch ou_id root_id = .ok ()) →
      moveChildrenLoop ou_id root_id c l
        = (l.map (fun ch => RemoteCall.moveAccount ch ou_id root_id),
           .ok ()) := by
  intro l
  induction l with
  | nil => intro h; rfl
  | cons ch rest ih =>
      intro h
      have hch := h ch (List.mem_cons_self ch rest)
      rw [moveChildrenLoop, hch, moveRetryConst_ok,
        ih (fun x hx => h x (List.mem_cons_of_mem ch hx))]
      simp

theorem childMoveEvents_all_calls (ou_id : String) (c : OrgClient) :
    ∀ l ev, ev ∈ childMoveEvents ou_id c l → ∃ rc, ev = Event.call rc := by
  intro l
  induction l with
  | nil => intro ev h; cases h
  | cons ch rest ih =>
      intro ev h
      simp only [childMoveEvents] at h
      rcases List.mem_append.mp h with h1 | h2
      · split at h1
        · cases h1
        · split at h1
          · exact ⟨_, by simpa using h1⟩
          · exact ⟨_, by simpa using h1⟩
          · rcases List.mem_cons.mp h1 with h3 | h3
            · exact ⟨_, h3⟩
            · exact ⟨_, List.eq_of_mem_replicate h3⟩
      · exact ih ev h2

/-- A concrete healthy client used to instantiate theorems: one root
`r-abcd`, every describe succeeds, policy `p-abcd` attached to account
`123456789012`, all mutations succeed. -/
def okClient : OrgClient :=
  { roots := .ok ["r-abcd"]
  , describeAccountRes := fun _ => .ok ()
  , describeOURes := fun _ => .ok ()
  , listTargets := fun pid => if pid = "p-abcd" then .ok ["123456789012"]
      else .ok []
  , attachRes := fun _ _ => .ok ()
  , detachRes := fun _ _ => .ok ()
  , deletePolicyRes := fun _ => .ok ()
  , listChildrenRes := fun _ => .ok []
  , listParentsRes := fun _ => .ok []
  , moveRes := fun _ _ _ => .ok ()
  , createOURes := fun _ _ => .ok ("ou-abcd-12345678", "arn:ou")
  , deleteOURes := fun _ => .ok () }

/-- C5: when the policy is already attached to the resolved target
according to the remote attachment listing, attachment create returns a
success outcome and issues zero remote attach calls. -/
theorem attachment_create_idempotent (logicalId policy_id target_id t :
    String) (c : OrgClient) (l : List String)
    (h1 : policy_id ≠ "") (h2 : target_id ≠ "")
    (h3 : policyIdMatch policy_id = true)
    (h4 : (validate_target_id target_id c).2 = .ok t)
    (h5 : c.listTargets policy_id = .ok l) (h6 : t ∈ l) :
    (create_service_control_policy_attachment logicalId policy_id target_id
        c).response
      = .success ("SCPAttachment-" ++ logicalId)
          [("PolicyId", policy_id), ("TargetId", t),
           ("Message", "Policy attachment already exists")] ∧
    ∀ p tt, RemoteCall.attachPolicy p tt
      ∉ (create_service_control_policy_attachment logicalId policy_id
          target_id c).calls := by
  have hatt : (is_policy_attached_to_target policy_id t c).2 = true := by
    simpa [is_policy_attached_to_target, h5] using h6
  have hred : create_service_control_policy_attachment logicalId policy_id
      target_id c
      = ⟨(validate_target_id target_id c).1
           ++ [RemoteCall.listTargets policy_id],
         .success ("SCPAttachment-" ++ logicalId)
           [("PolicyId", policy_id), ("TargetId", t),
            ("Message", "Policy attachment already exists")]⟩ := by
    simp only [create_service_control_policy_attachment, h1, h3, h4, hatt,
      if_neg, if_false]
    simp [h1, h2, h3, hatt, is_policy_attached_to_target]
  refine ⟨by rw [hred], ?_⟩
  intro p tt hmem
  rw [hred] at hmem
  simp only at hmem
  rcases List.mem_append.mp hmem with hv | hl
  · rcases validate_target_id_calls_cases target_id c with h | h | h | h <;>
      rw [h] at hv <;> simp at hv
  · simp at hl

/-- C9: if the remote attachment listing raises while attachment delete
checks whether the policy is attached, the helper returns `False` and the
delete returns an already-deleted success outcome with no detach call
issued. -/
theorem attachment_delete_listing_failure (pid policy_id target_id t e :
    String) (c : OrgClient)
    (h0 : ¬(pid = "" ∨ strStartsWith pid "Failed/"))
    (h1 : ¬(policy_id = "" ∨ target_id = ""))
    (h3 : (validate_target_id target_id c).2 = .ok t)
    (h4 : c.listTargets policy_id = .err e) :
    (is_policy_attached_to_target policy_id t c).2 = false ∧
    (delete_service_control_policy_attachment pid policy_id target_id
        c).response
      = .success pid [("PolicyId", policy_id), ("TargetId", t),
          ("Message", "Policy attachment already deleted")] ∧
    ∀ p tt, RemoteCall.detachPolicy p tt
      ∉ (delete_service_control_policy_attachment pid policy_id target_id
          c).calls := by
  have hfalse : (is_policy_attached_to_target policy_id t c).2 = false := by
    simp [is_policy_attached_to_target, h4]
  have hred : delete_service_control_policy_attachment pid policy_id
      target_id c
      = ⟨(validate_target_id target_id c).1
           ++ [RemoteCall.listTargets policy_id],
         .success pid [("PolicyId", policy_id), ("TargetId", t),
           ("Message", "Policy attachment already deleted")]⟩ := by
    simp [delete_service_control_policy_attachment, h0, h1, h3, hfalse,
      is_policy_attached_to_target, h4]
  refine ⟨hfalse, by rw [hred], ?_⟩
  intro p tt hmem
  rw [hred] at hmem
  simp only at hmem
  rcases List.mem_append.mp hmem with hv | hl
  · rcases validate_target_id_calls_cases target_id c with h | h | h | h <;>
      rw [h] at hv <;> simp at hv
  · simp at hl

/-- C7: a delete request (policy or organizational unit) whose stored
identifier is empty or carries the `Failed/` sentinel prefix returns a
success outcome and performs zero remote calls. -/
theorem delete_sentinel_skips (policy_id ou_id : String) (c c2 : OrgClient)
    (h1 : policy_id = "" ∨ strStartsWith policy_id "Failed/")
    (h2 : ou_id = "" ∨ strStartsWith ou_id "Failed/") :
    delete_service_control_policy policy_id c
      = ⟨[], .success policy_id
          [("Message", "Skipped deletion - policy was never created")]⟩ ∧
    delete_organizational_unit ou_id c2
      = ⟨[], .success ou_id
          [("Message", "Skipped deletion - OU was never created")]⟩ := by
  constructor
  · unfold delete_service_control_policy
    rw [if_pos h1]
  · unfold delete_organizational_unit
    rw [if_pos h2]

/-- Witness for `delete_sentinel_skips` on concrete sentinel ids. -/
theorem delete_sentinel_skips_witness :
    delete_service_control_policy "" okClient
      = ⟨[], .success ""
          [("Message", "Skipped deletion - policy was never created")]⟩ ∧
    delete_organizational_unit "Failed/Create" okClient
      = ⟨[], .success "Failed/Create"
          [("Message", "Skipped deletion - OU was never created")]⟩ :=
  delete_sentinel_skips "" "Failed/Create" okClient okClient
    (Or.inl rfl) (Or.inr (by decide))

/-- A client in which policy `p-abcd` has account `123456789012` as its
sole attachment target AND the default `p-FullAWSAccess` policy is already
attached to that account. -/
def defaultAttachedClient : OrgClient :=
  { roots := .ok ["r-abcd"]
  , describeAccountRes := fun _ => .ok ()
  , describeOURes := fun _ => .ok ()
  , listTargets := fun pid =>
      if pid = "p-abcd" then .ok ["123456789012"]
      else if pid = DEFAULT_FULL_ACCESS_POLICY_ID then .ok ["123456789012"]
      else .ok []
  , attachRes := fun _ _ => .ok ()
  , detachRes := fun _ _ => .ok ()
  , deletePolicyRes := fun _ => .ok ()
  , listChildrenRes := fun _ => .ok []
  , listParentsRes := fun _ => .ok []
  , moveRes := fun _ _ _ => .ok ()
  , createOURes := fun _ _ => .ok ("ou-abcd-12345678", "arn:ou")
  , deleteOURes := fun _ => .ok () }

/-- C4 counterexample: attachment delete for policy `p-abcd`, whose only
attachment is account `123456789012` (count = 1 ≤ 1), while the default
full-access policy is ALREADY attached to that account: the detach is
issued but zero attach calls of the default policy occur, refuting
"exactly one attach call ... occurs before the detach call". -/
theorem attachment_delete_default_attach_counterexample :
    (is_policy_attached_to_target "p-abcd" "123456789012"
        defaultAttachedClient).2 = true ∧
    defaultAttachedClient.listTargets "p-abcd" = .ok ["123456789012"] ∧
    List.count
        (RemoteCall.attachPolicy DEFAULT_FULL_ACCESS_POLICY_ID "123456789012")
        (delete_service_control_policy_attachment "SCPAttachment-A" "p-abcd"
          "123456789012" defaultAttachedClient).calls = 0 ∧
    RemoteCall.detachPolicy "p-abcd" "123456789012"
      ∈ (delete_service_control_policy_attachment "SCPAttachment-A" "p-abcd"
          "123456789012" defaultAttachedClient).calls := by decide

/-- C4 amended: when attachment delete targets a policy attached to the
resolved target with attachment count at most 1, AND the default policy is
not already attached to the target, AND its attach succeeds on the first
try, then exactly one attach call of the default full-access policy occurs
and it precedes every detach call; when the default policy is already
attached, no attach call occurs at all. -/
theorem attachment_delete_default_attach (pid policy_id target_id t :
    String) (c : OrgClient) (l : List String)
    (h0 : ¬(pid = "" ∨ strStartsWith pid "Failed/"))
    (h1 : ¬(policy_id = "" ∨ target_id = ""))
    (h3 : (validate_target_id target_id c).2 = .ok t)
    (h4 : c.listTargets policy_id = .ok l)
    (h5 : t ∈ l) (h6 : l.length ≤ 1)
    (h7 : (is_policy_attached_to_target DEFAULT_FULL_ACCESS_POLICY_ID t
        c).2 = false)
    (h8 : c.attachRes DEFAULT_FULL_ACCESS_POLICY_ID t = .ok ()) :
    ∃ post,
      (delete_service_control_policy_attachment pid policy_id target_id
          c).calls
        = ((validate_target_id target_id c).1
            ++ [RemoteCall.listTargets policy_id,
                RemoteCall.listTargets policy_id,
                RemoteCall.listTargets DEFAULT_FULL_ACCESS_POLICY_ID])
          ++ RemoteCall.attachPolicy DEFAULT_FULL_ACCESS_POLICY_ID t :: post ∧
      (∀ p tt, RemoteCall.attachPolicy p tt
        ∉ (validate_target_id target_id c).1
            ++ [RemoteCall.listTargets policy_id,
                RemoteCall.listTargets policy_id,
                RemoteCall.listTargets DEFAULT_FULL_ACCESS_POLICY_ID]) ∧
      (∀ p tt, RemoteCall.detachPolicy p tt
        ∉ (validate_target_id target_id c).1
            ++ [RemoteCall.listTargets policy_id,
                RemoteCall.listTargets policy_id,
                RemoteCall.listTargets DEFAULT_FULL_ACCESS_POLICY_ID]) ∧
      (∀ p tt, RemoteCall.attachPolicy p tt ∉ post) ∧
      RemoteCall.detachPolicy policy_id t ∈ post := by
  have hatt : (is_policy_attached_to_target policy_id t c).2 = true := by
    simpa [is_policy_attached_to_target, h4] using h5
  have hdef : handle_default_policy_attachment t c
      = [RemoteCall.listTargets DEFAULT_FULL_ACCESS_POLICY_ID,
         RemoteCall.attachPolicy DEFAULT_FULL_ACCESS_POLICY_ID t] := by
    simp only [handle_default_policy_attachment, h7]
    simp [h8, retryConst_ok, is_policy_attached_to_target]
  refine ⟨List.replicate (retryConst (c.detachRes policy_id t)).1
      (RemoteCall.detachPolicy policy_id t), ?_, ?_, ?_, ?_, ?_⟩
  · rcases hr : (retryConst (c.detachRes policy_id t)).2 with v | e2 | e2 <;>
      · simp only [delete_service_control_policy_attachment, h0, h1, h3,
          hatt, h4, hdef]
        simp [h0, h1, hatt, h4, h6, hdef, hr, is_policy_attached_to_target]
  · intro p tt hmem
    rcases List.mem_append.mp hmem with hv | hl
    · rcases validate_target_id_calls_cases target_id c with h | h | h | h <;>
        rw [h] at hv <;> simp at hv
    · simp at hl
  · intro p tt hmem
    rcases List.mem_append.mp hmem with hv | hl
    · rcases validate_target_id_calls_cases target_id c with h | h | h | h <;>
        rw [h] at hv <;> simp at hv
    · simp at hl
  · intro p tt hmem
    have := List.eq_of_mem_replicate hmem
    cases this
  · refine List.mem_replicate.mpr ⟨?_, rfl⟩
    have := retryConst_pos (c.detachRes policy_id t)
    omega

/-- A client with one root and one child account under every OU. -/
def childClient : OrgClient :=
  { roots := .ok ["r-abcd"]
  , describeAccountRes := fun _ => .ok ()
  , describeOURes := fun _ => .ok ()
  , listTargets := fun _ => .ok []
  , attachRes := fun _ _ => .ok ()
  , detachRes := fun _ _ => .ok ()
  , deletePolicyRes := fun _ => .ok ()
  , listChildrenRes := fun _ => .ok ["123456789012"]
  , listParentsRes := fun _ => .ok ["r-abcd"]
  , moveRes := fun _ _ _ => .ok ()
  , createOURes := fun _ _ => .ok ("ou-abcd-12345678", "arn:ou")
  , deleteOURes := fun _ => .ok () }

/-- C8: deleting an OU with `n` child accounts (moves succeeding) issues
exactly the `n` move-to-root calls, in order, before the single
`deleteOrganizationalUnit` call; and for ANY client behaviour the delete
call is still attempted even if moving children fails. -/
theorem ou_delete_moves_children_first (ou_id root : String)
    (moreRoots children : List String) (c : OrgClient)
    (h1 : ¬(ou_id = "" ∨ strStartsWith ou_id "Failed/"))
    (h2 : validate_ou_id ou_id = true)
    (h3 : c.roots = .ok (root :: moreRoots))
    (h4 : c.listChildrenRes ou_id = .ok children)
    (h5 : ∀ ch ∈ children, c.moveRes ch ou_id root = .ok ())
    (h6 : c.deleteOURes ou_id = .ok ()) :
    (delete_organizational_unit ou_id c).calls
      = RemoteCall.listRoots :: RemoteCall.listChildren ou_id ::
          (children.map (fun ch => RemoteCall.moveAccount ch ou_id root)
            ++ [RemoteCall.deleteOU ou_id]) ∧
    (delete_organizational_unit ou_id c).response
      = .success ou_id [("Id", ou_id),
          ("Message", "Organizational unit deleted successfully")] ∧
    ∀ c2 : OrgClient, RemoteCall.deleteOU ou_id
      ∈ (delete_organizational_unit ou_id c2).calls := by
  have hmove : move_all_children_to_root ou_id c
      = (RemoteCall.listRoots :: RemoteCall.listChildren ou_id ::
          children.map (fun ch => RemoteCall.moveAccount ch ou_id root),
         .ok ()) := by
    cases children with
    | nil => simp [move_all_children_to_root, h3, h4]
    | cons ch rest =>
        rw [move_all_children_to_root]
        rw [h3, h4]
        simp only [List.isEmpty_cons, moveChildrenLoop_ok ou_id root c
          (ch :: rest) h5]
        simp
  have hred : delete_organizational_unit ou_id c
      = ⟨RemoteCall.listRoots :: RemoteCall.listChildren ou_id ::
          (children.map (fun ch => RemoteCall.moveAccount ch ou_id root)
            ++ [RemoteCall.deleteOU ou_id]),
         .success ou_id [("Id", ou_id),
           ("Message", "Organizational unit deleted successfully")]⟩ := by
    simp only [delete_organizational_unit, h1, h2]
    simp [h1, h2, hmove, h6, retryConst_ok]
  refine ⟨by rw [hred], by rw [hred], ?_⟩
  intro c2
  have hpos := retryConst_pos (c2.deleteOURes ou_id)
  have hcalls : (delete_organizational_unit ou_id c2).calls
      = (move_all_children_to_root ou_id c2).1
        ++ List.replicate (retryConst (c2.deleteOURes ou_id)).1
            (RemoteCall.deleteOU ou_id) := by
    simp only [delete_organizational_unit, if_neg h1,
      if_neg (by simp [h2] : ¬validate_ou_id ou_id = false)]
    cases (retryConst (c2.deleteOURes ou_id)).2 <;> rfl
  rw [hcalls]
  exact List.mem_append.mpr (Or.inr
    (List.mem_replicate.mpr ⟨by omega, rfl⟩))

/-- Witness for `ou_delete_moves_children_first` at a concrete OU with one
child account. -/
theorem ou_delete_moves_children_first_witness :
    (delete_organizational_unit "ou-abcd-12345678" childClient).calls
      = RemoteCall.listRoots :: RemoteCall.listChildren "ou-abcd-12345678" ::
          ([RemoteCall.moveAccount "123456789012" "ou-abcd-12345678" "r-abcd"]
            ++ [RemoteCall.deleteOU "ou-abcd-12345678"]) := by
  have h := ou_delete_moves_children_first "ou-abcd-12345678" "r-abcd" []
    ["123456789012"] childClient (by decide) (by decide) rfl rfl
    (by intro ch hch; rfl) rfl
  exact h.1

/-- C10: `create_organizational_unit` sends its success response (carrying
the new OU id and ARN) as soon as the remote create succeeds; no response
and no account move precedes it, and no further response follows it —
whatever happens to the child moves, the reported outcome is that
success. -/
theorem ou_create_responds_before_child_moves (parent_id ou_name p ou_id
    ou_arn : String) (children : List String) (c : OrgClient)
    (h1 : parent_id ≠ "") (h2 : ou_name ≠ "") (h3 : strStrip ou_name ≠ "")
    (h4 : (resolve_parent_id parent_id c).2 = .ok p)
    (h5 : c.createOURes p ou_name = .ok (ou_id, ou_arn)) :
    ∃ l1 l2,
      create_organizational_unit parent_id ou_name children c
        = l1 ++ Event.respond (.success ou_id
            [("Id", ou_id), ("Arn", ou_arn), ("Name", ou_name),
             ("ParentId", p),
             ("Message", "Organizational unit created successfully")]) :: l2 ∧
      (∀ ev ∈ l1, (∀ r, ev ≠ Event.respond r) ∧
        (∀ a s d, ev ≠ Event.call (RemoteCall.moveAccount a s d))) ∧
      (∀ ev ∈ l2, ∀ r, ev ≠ Event.respond r) := by
  refine ⟨(resolve_parent_id parent_id c).1.map Event.call
      ++ [Event.call (RemoteCall.createOU p ou_name)],
    childMoveEvents ou_id c children, ?_, ?_, ?_⟩
  · simp only [create_organizational_unit, h1, h2, h3, h4, h5,
      retryConst_ok]
    simp [h1, h2, h3]
  · intro ev hev
    rcases List.mem_append.mp hev with hmap | hsing
    · obtain ⟨rc, hrc, rfl⟩ := List.mem_map.mp hmap
      rcases resolve_parent_id_calls_cases parent_id c with h | h <;>
        rw [h] at hrc
      · cases hrc
      · have : rc = RemoteCall.listRoots := by simpa using hrc
        subst this
        exact ⟨fun r => by simp, fun a s d => by simp⟩
    · have : ev = Event.call (RemoteCall.createOU p ou_name) := by
        simpa using hsing
      subst this
      exact ⟨fun r => by simp, fun a s d => by simp⟩
  · intro ev hev r
    obtain ⟨rc, hrc⟩ := childMoveEvents_all_calls ou_id c children ev hev
    subst hrc
    simp

/-- Witness for `ou_create_responds_before_child_moves`: creating
`Sandbox` under the root with one child account. -/
theorem ou_create_responds_before_child_moves_witness :
    ∃ l1 l2,
      create_organizational_unit "root" "Sandbox" ["123456789012"]
          childClient
        = l1 ++ Event.respond (.success "ou-abcd-12345678"
            [("Id", "ou-abcd-12345678"), ("Arn", "arn:ou"),
             ("Name", "Sandbox"), ("ParentId", "r-abcd"),
             ("Message", "Organizational unit created successfully")]) :: l2 ∧
      (∀ ev ∈ l1, (∀ r, ev ≠ Event.respond r) ∧
        (∀ a s d, ev ≠ Event.call (RemoteCall.moveAccount a s d))) ∧
      (∀ ev ∈ l2, ∀ r, ev ≠ Event.respond r) :=
  ou_create_responds_before_child_moves "root" "Sandbox" "r-abcd"
    "ou-abcd-12345678" "arn:ou" ["123456789012"] childClient
    (by decide) (by decide) (by decide) (by decide) rfl

theorem checkStatements_ok :
    ∀ stmts i,
      (∀ s ∈ stmts, ∃ sf e, s = JVal.obj sf ∧
        lookupField sf "Effect" = some (JVal.str e) ∧
        (e = "Allow" ∨ e = "Deny")) →
      checkStatements stmts i = .ok () := by
  intro stmts
  induction stmts with
  | nil => intro i h; rfl
  | cons s rest ih =>
      intro i h
      obtain ⟨sf, e, rfl, heff, hor⟩ := h _ (List.mem_cons_self s rest)
      simp only [checkStatements, heff]
      rw [if_pos hor]
      exact ih (i + 1) (fun x hx => h x (List.mem_cons_of_mem _ hx))

theorem checkDoc_ok (v : JVal) (hv : validDoc v) : checkDoc v = .ok () := by
  obtain ⟨fields, stmts, rfl, hver, hst, hne, hall⟩ := hv
  have hvn : (lookupField fields "Version").isNone = false := by
    obtain ⟨a, ha⟩ := Option.isSome_iff_exists.mp hver
    simp [ha]
  simp only [checkDoc, hst, hvn]
  rw [if_neg (by simp)]
  rw [if_neg (by simpa [List.length_eq_zero] using hne)]
  exact checkStatements_ok stmts 0 hall

/-- C6 amended: on any well-formed document (top-level version, non-empty
statements, every effect Allow/Deny) `validate_policy_document` never
raises; the structured (dict) form returns the compact serialization,
while the pre-serialized (string) form is returned VERBATIM — the two
forms therefore agree only when the input string is already the compact
serialization. -/
theorem validate_policy_document_forms (v : JVal) (raw : String)
    (loads : String → Option JVal) (hv : validDoc v)
    (hload : loads raw = some v) :
    validate_policy_document_dict v = .ok (dumpsCompact v) ∧
    validate_policy_document_str raw loads = .ok raw := by
  have h := checkDoc_ok v hv
  constructor
  · simp [validate_policy_document_dict, h]
  · simp [validate_policy_document_str, hload, h]

/-- A well-formed document as a structured value. -/
def docVal : JVal :=
  JVal.obj [("Version", JVal.str "2012-10-17"),
            ("Statement", JVal.arr [JVal.obj [("Effect", JVal.str "Allow")]])]

/-- The same document pre-serialized with Python's default separators
(`", "` / `": "`), i.e. what `json.dumps(doc)` without the compact
separators produces; `json.loads` of this string yields `docVal`. -/
def rawDoc : String :=
  "\x7b\"Version\": \"2012-10-17\", \"Statement\": [\x7b\"Effect\": \"Allow\"\x7d]\x7d"

/-- `json.loads` restricted to the one input needed by the counterexample:
it agrees with Python's parser on `rawDoc`. -/
def loadsC6 : String → Option JVal :=
  fun s => if s = rawDoc then some docVal else none

/-- C6 counterexample: the same valid document, given pre-serialized (with
Python's default spacing) and structured, yields two DIFFERENT serialized
outputs — the string form is echoed verbatim, the dict form is
re-serialized compactly, so the two forms do not normalize to the same
canonical output. -/
theorem validate_policy_document_normalization_counterexample :
    validate_policy_document_str rawDoc loadsC6 = .ok rawDoc ∧
    validate_policy_document_dict docVal = .ok (dumpsCompact docVal) ∧
    rawDoc ≠ dumpsCompact docVal := by decide

/-- Witness for `validate_policy_document_forms` at the concrete document
`docVal` / `rawDoc`. -/
theorem validate_policy_document_forms_witness :
    validate_policy_document_dict docVal = .ok (dumpsCompact docVal) ∧
    validate_policy_document_str rawDoc loadsC6 = .ok rawDoc := by
  have hv : validDoc docVal := by
    refine ⟨_, _, rfl, rfl, rfl, by simp, ?_⟩
    intro s hs
    have : s = JVal.obj [("Effect", JVal.str "Allow")] := by simpa using hs
    subst this
    exact ⟨_, "Allow", rfl, rfl, Or.inl rfl⟩
  exact validate_policy_document_forms docVal rawDoc loadsC6 hv
    (by rw [loadsC6]; simp)

/-- Witness for `attachment_create_idempotent`: re-attaching `p-abcd` to
the account it is already attached to. -/
theorem attachment_create_idempotent_witness :
    (create_service_control_policy_attachment "Att1" "p-abcd" "123456789012"
        okClient).response
      = .success ("SCPAttachment-" ++ "Att1")
          [("PolicyId", "p-abcd"), ("TargetId", "123456789012"),
           ("Message", "Policy attachment already exists")] :=
  (attachment_create_idempotent "Att1" "p-abcd" "123456789012"
    "123456789012" okClient ["123456789012"] (by decide) (by decide)
    (by decide) (by decide) (by decide) (by decide)).1

/-- A client whose attachment listing always raises. -/
def listingFailClient : OrgClient :=
  { okClient with listTargets := fun _ => .err "ServiceException" }

/-- Witness for `attachment_delete_listing_failure`: the listing raises a
`ServiceException`, and the delete reports already-deleted success. -/
theorem attachment_delete_listing_failure_witness :
    (delete_service_control_policy_attachment "SCPAttachment-A" "p-abcd"
        "123456789012" listingFailClient).response
      = .success "SCPAttachment-A"
          [("PolicyId", "p-abcd"), ("TargetId", "123456789012"),
           ("Message", "Policy attachment already deleted")] :=
  (attachment_delete_listing_failure "SCPAttachment-A" "p-abcd"
    "123456789012" "123456789012" "ServiceException" listingFailClient
    (by decide) (by decide) (by decide) rfl).2.1

/-- Witness for `attachment_delete_default_attach`: deleting the sole
attachment of `p-abcd` when the default policy is not yet attached. -/
theorem attachment_delete_default_attach_witness :
    ∃ post,
      (delete_service_control_policy_attachment "SCPAttachment-A" "p-abcd"
          "123456789012" okClient).calls
        = ((validate_target_id "123456789012" okClient).1
            ++ [RemoteCall.listTargets "p-abcd",
                RemoteCall.listTargets "p-abcd",
                RemoteCall.listTargets DEFAULT_FULL_ACCESS_POLICY_ID])
          ++ RemoteCall.attachPolicy DEFAULT_FULL_ACCESS_POLICY_ID
              "123456789012" :: post ∧
      (∀ p tt, RemoteCall.attachPolicy p tt
        ∉ (validate_target_id "123456789012" okClient).1
            ++ [RemoteCall.listTargets "p-abcd",
                RemoteCall.listTargets "p-abcd",
                RemoteCall.listTargets DEFAULT_FULL_ACCESS_POLICY_ID]) ∧
      (∀ p tt, RemoteCall.detachPolicy p tt
        ∉ (validate_target_id "123456789012" okClient).1
            ++ [RemoteCall.listTargets "p-abcd",
                RemoteCall.listTargets "p-abcd",
                RemoteCall.listTargets DEFAULT_FULL_ACCESS_POLICY_ID]) ∧
      (∀ p tt, RemoteCall.attachPolicy p tt ∉ post) ∧
      RemoteCall.detachPolicy "p-abcd" "123456789012" ∈ post :=
  attachment_delete_default_attach "SCPAttachment-A" "p-abcd" "123456789012"
    "123456789012" okClient ["123456789012"] (by decide) (by decide)
    (by decide) (by decide) (by decide) (by decide) (by decide) rfl

end CoreOrg
